import Mathlib

/-
  Verification development for the Gnoke-OBD2 telemetry and diagnostic engine.

  Shallow embedding of:
  - the PID descriptor table and its per-parameter scaling functions (core/pids.js),
  - the OBD kernel's command queue (core/kernel.js): FIFO completion order,
    inter-command write spacing, and disconnect behaviour,
  - the Mode 06 test-record decoder (plugins/monitoring.js),
  - the readiness-monitor status decoder (apps/readiness.js),
  - the polling modules' tick / update / fetch state machines
    (apps/timing.js, apps/emissions.js, apps/battery.js),
  - the predictive plugin's linear-trend regression (plugins/predictive.js).

  JavaScript numbers are modelled as exact rationals; machine timestamps as
  naturals (milliseconds).  DOM rendering and logging calls are omitted: they
  read the modelled state but never write it.
-/

namespace Gnoke

/-! ### PID descriptor table (core/pids.js, window.PIDS)

Each descriptor carries the request code, the scaling function from the parsed
byte array to a physical value, and the display unit.  The JavaScript parse
functions have the shape `bytes ? expr : null`; a null byte array yields null,
modelled as `Option`.  Byte access `bytes[i]` is modelled as `getD i 0`; the
source only ever applies these functions to frames of sufficient length or to
null. -/

structure PidDesc where
  code : String
  parse : Option (List Nat) → Option ℚ
  unit : String

namespace PIDS

def RPM : PidDesc :=
  { code := "010C"
    parse := fun b => match b with
      | none => none
      | some bytes => some (((bytes.getD 0 0 : ℚ) * 256 + (bytes.getD 1 0 : ℚ)) / 4)
    unit := "RPM" }

def SPEED : PidDesc :=
  { code := "010D"
    parse := fun b => match b with
      | none => none
      | some bytes => some (bytes.getD 0 0 : ℚ)
    unit := "km/h" }

def COOLANT : PidDesc :=
  { code := "0105"
    parse := fun b => match b with
      | none => none
      | some bytes => some ((bytes.getD 0 0 : ℚ) - 40)
    unit := "°C" }

def THROTTLE : PidDesc :=
  { code := "0111"
    parse := fun b => match b with
      | none => none
      | some bytes => some ((bytes.getD 0 0 : ℚ) * 100 / 255)
    unit := "%" }

def FUEL_LEVEL : PidDesc :=
  { code := "012F"
    parse := fun b => match b with
      | none => none
      | some bytes => some ((bytes.getD 0 0 : ℚ) * 100 / 255)
    unit := "%" }

def BATTERY : PidDesc :=
  { code := "0142"
    parse := fun b => match b with
      | none => none
      | some bytes => some (((bytes.getD 0 0 : ℚ) * 256 + (bytes.getD 1 0 : ℚ)) / 1000)
    unit := "V" }

def ENGINE_LOAD : PidDesc :=
  { code := "0104"
    parse := fun b => match b with
      | none => none
      | some bytes => some ((bytes.getD 0 0 : ℚ) * 100 / 255)
    unit := "%" }

def TIMING_ADVANCE : PidDesc :=
  { code := "010E"
    parse := fun b => match b with
      | none => none
      | some bytes => some (((bytes.getD 0 0 : ℚ) - 128) / 2)
    unit := "°" }

def INTAKE_TEMP : PidDesc :=
  { code := "010F"
    parse := fun b => match b with
      | none => none
      | some bytes => some ((bytes.getD 0 0 : ℚ) - 40)
    unit := "°C" }

def MAF_RATE : PidDesc :=
  { code := "0110"
    parse := fun b => match b with
      | none => none
      | some bytes => some (((bytes.getD 0 0 : ℚ) * 256 + (bytes.getD 1 0 : ℚ)) / 100)
    unit := "g/s" }

def SHORT_FUEL_TRIM_1 : PidDesc :=
  { code := "0106"
    parse := fun b => match b with
      | none => none
      | some bytes => some (((bytes.getD 0 0 : ℚ) - 128) * 100 / 128)
    unit := "%" }

def LONG_FUEL_TRIM_1 : PidDesc :=
  { code := "0107"
    parse := fun b => match b with
      | none => none
      | some bytes => some (((bytes.getD 0 0 : ℚ) - 128) * 100 / 128)
    unit := "%" }

def O2_B1S1 : PidDesc :=
  { code := "0114"
    parse := fun b => match b with
      | none => none
      | some bytes => some ((bytes.getD 0 0 : ℚ) / 200)
    unit := "V" }

def O2_B1S2 : PidDesc :=
  { code := "0115"
    parse := fun b => match b with
      | none => none
      | some bytes => some ((bytes.getD 0 0 : ℚ) / 200)
    unit := "V" }

end PIDS

/-- All fourteen descriptors of window.PIDS, in source order. -/
def pidsList : List PidDesc :=
  [PIDS.RPM, PIDS.SPEED, PIDS.COOLANT, PIDS.THROTTLE, PIDS.FUEL_LEVEL,
   PIDS.BATTERY, PIDS.ENGINE_LOAD, PIDS.TIMING_ADVANCE, PIDS.INTAKE_TEMP,
   PIDS.MAF_RATE, PIDS.SHORT_FUEL_TRIM_1, PIDS.LONG_FUEL_TRIM_1,
   PIDS.O2_B1S1, PIDS.O2_B1S2]

/-! ### Command queue FIFO model (core/kernel.js)

`sendCommand` pushes a record onto `commandQueue` and pokes `processQueue`.
`processQueue` is guarded by `isProcessingQueue`, so at most one drain loop
runs; the loop shifts the queue head, writes it, awaits its response or
timeout, and settles (resolves or rejects) exactly that command's promise
before touching the next element.  All promise settlements of the kernel
happen inside this loop.  The model assigns each submission a sequence number
and records the order in which promises are settled: a `submit` event appends
the next id to the queue; a `complete` event settles the current head
(whether by resolution or by timeout rejection - the order is the same). -/

inductive SchedEvent where
  | submit : SchedEvent
  | complete : SchedEvent
deriving Repr, DecidableEq

structure SchedState where
  nextId : Nat
  queue : List Nat
  completed : List Nat
  submitted : List Nat
deriving Repr, DecidableEq

def schedInit : SchedState := ⟨0, [], [], []⟩

def schedStep (s : SchedState) : SchedEvent → SchedState
  | SchedEvent.submit =>
      { s with
        submitted := s.submitted ++ [s.nextId]
        queue := s.queue ++ [s.nextId]
        nextId := s.nextId + 1 }
  | SchedEvent.complete =>
      match s.queue with
      | [] => s
      | h :: t => { s with queue := t, completed := s.completed ++ [h] }

def schedRun (evs : List SchedEvent) : SchedState :=
  evs.foldl schedStep schedInit

/-! ### Kernel write-timing model (core/kernel.js, processQueue / waitForResponse)

The drain loop computes `wait = max(0, minCommandDelay - (now - lastCommandTime))`,
sleeps, writes the command, then polls the receive buffer every 50 ms:
at each poll it first checks for the prompt character and otherwise rejects
once the elapsed time exceeds the command's timeout.  `lastCommandTime` is
assigned only on the success path, after `waitForResponse` resolves; the
timeout path leaves it unchanged.  A queued command is modelled by its
timeout and by when its response text arrives in the buffer (relative to the
write), `none` meaning the adapter stays silent. -/

def minCommandDelay : Nat := 150

def pollInterval : Nat := 50

structure QueuedCmd where
  timeoutMs : Nat
  respDelay : Option Nat
deriving Repr, DecidableEq

structure KernelClock where
  lastCommandTime : Nat
  now : Nat
deriving Repr, DecidableEq

/-- First 50 ms poll at which `waitForResponse` gives up: least k with 50k
exceeding the timeout. -/
def failPoll (timeoutMs : Nat) : Nat := timeoutMs / pollInterval + 1

/-- First 50 ms poll at which a response arriving r ms after the write is
visible in the buffer. -/
def succPoll (r : Nat) : Nat := max 1 ((r + pollInterval - 1) / pollInterval)

/-- One iteration of the drain loop: returns the updated clock and the time of
the physical write.  On success the completion time becomes the new
`lastCommandTime`; on timeout `lastCommandTime` is left as it was (the code's
catch path skips the assignment). -/
def processOne (st : KernelClock) (c : QueuedCmd) : KernelClock × Nat :=
  let wait := minCommandDelay - (st.now - st.lastCommandTime)
  let w := st.now + wait
  match c.respDelay with
  | some r =>
      if succPoll r ≤ failPoll c.timeoutMs then
        let e := w + pollInterval * succPoll r
        (⟨e, e⟩, w)
      else
        let e := w + pollInterval * failPoll c.timeoutMs
        (⟨st.lastCommandTime, e⟩, w)
  | none =>
      let e := w + pollInterval * failPoll c.timeoutMs
      (⟨st.lastCommandTime, e⟩, w)

/-- Write times produced by draining a burst of queued commands. -/
def writeTimes : List QueuedCmd → KernelClock → List Nat
  | [], _ => []
  | c :: cs, st =>
      let p := processOne st c
      p.2 :: writeTimes cs p.1

/-! ### Kernel disconnect model (core/kernel.js, sendCommand / disconnect)

Each submitted command owns a promise; the model tracks every promise's
settlement state, indexed by submission order.  `sendCommand` pushes
unconditionally - it performs no connection check.  `disconnect` sets
`connected := false`, replaces `commandQueue` with a fresh empty array and
clears `isProcessingQueue`; it touches no promise and does not null out the
in-flight command. -/

inductive HandleState where
  | pending : HandleState
  | resolved : HandleState
  | rejected : HandleState
deriving Repr, DecidableEq

structure KernelState where
  connected : Bool
  isProcessingQueue : Bool
  queue : List Nat
  inFlight : Option Nat
  handles : List HandleState
deriving Repr, DecidableEq

def kernelInit : KernelState :=
  { connected := false, isProcessingQueue := false, queue := [],
    inFlight := none, handles := [] }

def sendCommand (s : KernelState) : KernelState :=
  { s with
    queue := s.queue ++ [s.handles.length]
    handles := s.handles ++ [HandleState.pending] }

def disconnect (s : KernelState) : KernelState :=
  { s with connected := false, queue := [], isProcessingQueue := false }

/-! ### Mode 06 test-record decoder (plugins/monitoring.js, MonitoringApp)

`parseSignedInt16` builds `(highByte << 8) | lowByte` and reinterprets values
above 32767 as negative two's-complement.  `parseTestResults` walks the byte
array in 8-byte records (testId, componentId, minHi, minLo, maxHi, maxLo,
curHi, curLo); each record's min/max/current are scaled by the hardcoded
0.001, and `percentToLimit` is `(position / range) * 100` when
`range = max - min` is strictly positive, otherwise 0.  No clamping is
applied.  The model decodes a single record from its six value bytes. -/

def parseSignedInt16 (highByte lowByte : Nat) : Int :=
  let value := (highByte <<< 8) ||| lowByte
  if value > 32767 then (value : Int) - 65536 else (value : Int)

structure TestRec where
  minVal : ℚ
  maxVal : ℚ
  value : ℚ
  percentToLimit : ℚ
deriving Repr, DecidableEq

def testScale : ℚ := 1 / 1000

def parseRecord (b2 b3 b4 b5 b6 b7 : Nat) : TestRec :=
  let minValue := parseSignedInt16 b2 b3
  let maxValue := parseSignedInt16 b4 b5
  let currentValue := parseSignedInt16 b6 b7
  let range := maxValue - minValue
  let position := currentValue - minValue
  let percentToLimit : ℚ :=
    if range > 0 then ((position : ℚ) / (range : ℚ)) * 100 else 0
  { minVal := (minValue : ℚ) * testScale
    maxVal := (maxValue : ℚ) * testScale
    value := (currentValue : ℚ) * testScale
    percentToLimit := percentToLimit }

/-! ### Readiness-monitor decoder (apps/readiness.js, ReadinessApp.parseStatus)

Given status bytes A, B, C: the MIL bit and stored-code count come from A;
the three continuous monitors are always supported with completion read from
inverted bits of C; seven non-continuous monitors are gated on their bit in
B.  The source never assigns `monitors.acRefrigerant` inside `parseStatus`
(no mask 0x10 on B appears), so that entry keeps whatever value it had
before the call; the model threads the prior monitor table through. -/

structure MonitorFlag where
  supported : Bool
  complete : Bool
deriving Repr, DecidableEq

structure Monitors where
  misfire : MonitorFlag
  fuelSystem : MonitorFlag
  components : MonitorFlag
  catalyst : MonitorFlag
  heatedCatalyst : MonitorFlag
  evapSystem : MonitorFlag
  secondaryAir : MonitorFlag
  acRefrigerant : MonitorFlag
  oxygenSensor : MonitorFlag
  oxygenSensorHeater : MonitorFlag
  egrSystem : MonitorFlag
deriving Repr, DecidableEq

/-- Initial monitor table declared in the ReadinessApp object literal. -/
def initialMonitors : Monitors :=
  let f : MonitorFlag := ⟨false, false⟩
  ⟨f, f, f, f, f, f, f, f, f, f, f⟩

structure ReadinessResult where
  milStatus : Bool
  dtcCount : Nat
  monitors : Monitors
deriving Repr, DecidableEq

def parseStatus (prior : Monitors) (a b c : Nat) : ReadinessResult :=
  { milStatus := a &&& 0x80 != 0
    dtcCount := a &&& 0x7F
    monitors :=
      { misfire := ⟨true, c &&& 0x10 == 0⟩
        fuelSystem := ⟨true, c &&& 0x20 == 0⟩
        components := ⟨true, c &&& 0x40 == 0⟩
        catalyst := ⟨b &&& 0x01 != 0, (b &&& 0x01 != 0) && (c &&& 0x01 == 0)⟩
        heatedCatalyst := ⟨b &&& 0x02 != 0, (b &&& 0x02 != 0) && (c &&& 0x02 == 0)⟩
        evapSystem := ⟨b &&& 0x04 != 0, (b &&& 0x04 != 0) && (c &&& 0x04 == 0)⟩
        secondaryAir := ⟨b &&& 0x08 != 0, (b &&& 0x08 != 0) && (c &&& 0x08 == 0)⟩
        acRefrigerant := prior.acRefrigerant
        oxygenSensor := ⟨b &&& 0x20 != 0, (b &&& 0x20 != 0) && (c &&& 0x20 == 0)⟩
        oxygenSensorHeater := ⟨b &&& 0x40 != 0, (b &&& 0x40 != 0) && (c &&& 0x40 == 0)⟩
        egrSystem := ⟨b &&& 0x80 != 0, (b &&& 0x80 != 0) && (c &&& 0x80 == 0)⟩ } }

/-! ### Polling modules (apps/timing.js, apps/emissions.js, apps/battery.js)

Each module keeps per-parameter `supported` flags, a `consecutiveErrors`
counter and an `isActive` flag.  A tick first checks dashboard visibility,
connection (hardware or simulation) and activity; then the circuit breaker:
at `consecutiveErrors >= maxErrors` it returns without polling (bumping the
counter once more when exactly at the limit, to log only once).  Otherwise
`update` runs: in simulation it renders synthetic data; on hardware it runs
`fetchData`, whose per-parameter try/catch clears that parameter's flag when
`sendCommand` rejects and never rethrows - so `update`'s own catch is
unreachable and the truthy data object resets the counter.  The battery
module differs: its single fetch returns the parsed voltage and the counter
resets only when that value is non-null.  The environment of one tick
records the visibility/connection bits and each parameter's fetch outcome. -/

def maxErrors : Nat := 3

/-- Iterated ticks of a polling module, as fired by its setInterval timer:
threads the module state through and collects every request code sent. -/
def runTicks {ε σ : Type} (tick : ε → σ → σ × List String) :
    List ε → σ → σ × List String
  | [], s => (s, [])
  | e :: es, s =>
      let p := tick e s
      let q := runTicks tick es p.1
      (q.1, p.2 ++ q.2)

inductive FetchOutcome where
  | ok : FetchOutcome
  | reject : FetchOutcome
deriving Repr, DecidableEq

structure TimingEnv where
  dashVisible : Bool
  connected : Bool
  simulating : Bool
  timingFetch : FetchOutcome
  loadFetch : FetchOutcome
deriving Repr, DecidableEq

structure TimingState where
  isActive : Bool
  supportedTiming : Bool
  supportedLoad : Bool
  consecutiveErrors : Nat
deriving Repr, DecidableEq

/-- One guarded parameter fetch, the source's repeated pattern
`if (supported.x) try (sendCommand code; parse) catch (supported.x = false)`:
when the flag is set, the request code is sent and a rejection runs `clear`
on the state; when the flag is clear, nothing is sent. -/
def fetchStep {σ : Type} (flag : Bool) (outcome : FetchOutcome) (code : String)
    (s : σ) (clear : σ → σ) : σ × List String :=
  if flag then
    ((match outcome with
      | FetchOutcome.ok => s
      | FetchOutcome.reject => clear s),
     [code])
  else (s, [])

def timingFetchData (e : TimingEnv) (s : TimingState) : TimingState × List String :=
  let p1 := fetchStep s.supportedTiming e.timingFetch PIDS.TIMING_ADVANCE.code s
      (fun t => { t with supportedTiming := false })
  let p2 := fetchStep p1.1.supportedLoad e.loadFetch PIDS.ENGINE_LOAD.code p1.1
      (fun t => { t with supportedLoad := false })
  (p2.1, p1.2 ++ p2.2)

def timingUpdate (e : TimingEnv) (s : TimingState) : TimingState × List String :=
  if e.simulating then (s, [])
  else
    let p := timingFetchData e s
    ({ p.1 with consecutiveErrors := 0 }, p.2)

def timingTick (e : TimingEnv) (s : TimingState) : TimingState × List String :=
  if !(e.dashVisible && (e.connected || e.simulating) && s.isActive) then (s, [])
  else if maxErrors ≤ s.consecutiveErrors then
    (if s.consecutiveErrors = maxErrors
       then { s with consecutiveErrors := s.consecutiveErrors + 1 }
       else s,
     [])
  else timingUpdate e s

def timingRun : List TimingEnv → TimingState → TimingState × List String :=
  runTicks timingTick

structure EmissionsEnv where
  dashVisible : Bool
  connected : Bool
  simulating : Bool
  stftFetch : FetchOutcome
  ltftFetch : FetchOutcome
  o2s1Fetch : FetchOutcome
  o2s2Fetch : FetchOutcome
  mafFetch : FetchOutcome
deriving Repr, DecidableEq

structure EmissionsState where
  isActive : Bool
  stft1 : Bool
  ltft1 : Bool
  o2s1 : Bool
  o2s2 : Bool
  maf : Bool
  consecutiveErrors : Nat
deriving Repr, DecidableEq

def emissionsFetchData (e : EmissionsEnv) (s : EmissionsState) :
    EmissionsState × List String :=
  let p1 := fetchStep s.stft1 e.stftFetch PIDS.SHORT_FUEL_TRIM_1.code s
      (fun t => { t with stft1 := false })
  let p2 := fetchStep p1.1.ltft1 e.ltftFetch PIDS.LONG_FUEL_TRIM_1.code p1.1
      (fun t => { t with ltft1 := false })
  let p3 := fetchStep p2.1.o2s1 e.o2s1Fetch PIDS.O2_B1S1.code p2.1
      (fun t => { t with o2s1 := false })
  let p4 := fetchStep p3.1.o2s2 e.o2s2Fetch PIDS.O2_B1S2.code p3.1
      (fun t => { t with o2s2 := false })
  let p5 := fetchStep p4.1.maf e.mafFetch PIDS.MAF_RATE.code p4.1
      (fun t => { t with maf := false })
  (p5.1, p1.2 ++ p2.2 ++ p3.2 ++ p4.2 ++ p5.2)

def emissionsUpdate (e : EmissionsEnv) (s : EmissionsState) :
    EmissionsState × List String :=
  if e.simulating then (s, [])
  else
    let p := emissionsFetchData e s
    ({ p.1 with consecutiveErrors := 0 }, p.2)

def emissionsTick (e : EmissionsEnv) (s : EmissionsState) :
    EmissionsState × List String :=
  if !(e.dashVisible && (e.connected || e.simulating) && s.isActive) then (s, [])
  else if maxErrors ≤ s.consecutiveErrors then
    (if s.consecutiveErrors = maxErrors
       then { s with consecutiveErrors := s.consecutiveErrors + 1 }
       else s,
     [])
  else emissionsUpdate e s

def emissionsRun : List EmissionsEnv → EmissionsState → EmissionsState × List String :=
  runTicks emissionsTick

structure BatteryEnv where
  dashVisible : Bool
  connected : Bool
  simulating : Bool
  fetch : FetchOutcome
  bytes : Option (List Nat)
deriving Repr, DecidableEq

structure BatteryState where
  isActive : Bool
  supported : Bool
  consecutiveErrors : Nat
deriving Repr, DecidableEq

/-- Battery fetch: returns updated state, issued request codes, and the parsed
voltage (null when unsupported, on rejection, or when the frame was null). -/
def batteryFetchVoltage (e : BatteryEnv) (s : BatteryState) :
    BatteryState × List String × Option ℚ :=
  if !s.supported then (s, [], none)
  else
    match e.fetch with
    | FetchOutcome.reject => ({ s with supported := false }, [PIDS.BATTERY.code], none)
    | FetchOutcome.ok => (s, [PIDS.BATTERY.code], PIDS.BATTERY.parse e.bytes)

def batteryUpdate (e : BatteryEnv) (s : BatteryState) : BatteryState × List String :=
  if e.simulating then (s, [])
  else
    let p := batteryFetchVoltage e s
    match p.2.2 with
    | some _ => ({ p.1 with consecutiveErrors := 0 }, p.2.1)
    | none => (p.1, p.2.1)

def batteryTick (e : BatteryEnv) (s : BatteryState) : BatteryState × List String :=
  if !(e.dashVisible && (e.connected || e.simulating) && s.isActive) then (s, [])
  else if maxErrors ≤ s.consecutiveErrors then
    (if s.consecutiveErrors = maxErrors
       then { s with consecutiveErrors := s.consecutiveErrors + 1 }
       else s,
     [])
  else batteryUpdate e s

def batteryRun : List BatteryEnv → BatteryState → BatteryState × List String :=
  runTicks batteryTick

/-! ### Trend regression (plugins/predictive.js, PredictiveApp.calculateTrend)

The source loops over the data points with `forEach`, accumulating the four
sums of index, value, index*value and index*index, then applies the standard
closed-form slope and intercept.  The accumulations are modelled as sums over
the index range; the point at index i is `data.getD i 0`. -/

structure TrendResult where
  slope : ℚ
  intercept : ℚ
deriving Repr, DecidableEq

def calculateTrend (data : List ℚ) : TrendResult :=
  if data.length < 2 then ⟨0, 0⟩
  else
    let n : ℚ := data.length
    let sumX : ℚ := ∑ i ∈ Finset.range data.length, (i : ℚ)
    let sumY : ℚ := ∑ i ∈ Finset.range data.length, data.getD i 0
    let sumXY : ℚ := ∑ i ∈ Finset.range data.length, (i : ℚ) * data.getD i 0
    let sumXX : ℚ := ∑ i ∈ Finset.range data.length, (i : ℚ) * (i : ℚ)
    let slope := (n * sumXY - sumX * sumY) / (n * sumXX - sumX * sumX)
    let intercept := (sumY - slope * sumX) / n
    ⟨slope, intercept⟩

/-- Spec-side reading of a raw 16-bit value, written from the spec's words:
raw values above 32767 become negative by subtracting 65536.  Used to compare
the source's shift/or construction against the spec's arithmetic one. -/
def specSigned16 (raw : Nat) : Int :=
  if raw > 32767 then (raw : Int) - 65536 else (raw : Int)

/-- Scheduler invariant: ids are handed out densely in submission order, and
the settled ids followed by the still-queued ids reconstruct the submission
list. -/
def SchedInv (s : SchedState) : Prop :=
  s.submitted = List.range s.nextId ∧ s.completed ++ s.queue = s.submitted

/-! ## Theorems -/

theorem schedInv_init : SchedInv schedInit := by
  constructor <;> rfl

theorem schedInv_step (s : SchedState) (e : SchedEvent) (h : SchedInv s) :
    SchedInv (schedStep s e) := by
  obtain ⟨h1, h2⟩ := h
  cases e with
  | submit =>
      refine ⟨?_, ?_⟩
      · simp [schedStep, h1, List.range_succ]
      · simp only [schedStep]
        rw [← List.append_assoc, h2]
  | complete =>
      cases hq : s.queue with
      | nil =>
          simp only [schedStep, hq]
          exact ⟨h1, by simpa [hq] using h2⟩
      | cons hd tl =>
          refine ⟨by simp [schedStep, hq, h1], ?_⟩
          simp only [schedStep, hq]
          rw [List.append_assoc]
          rw [hq] at h2
          simpa using h2

theorem schedInv_foldl :
    ∀ (evs : List SchedEvent) (s : SchedState), SchedInv s →
      SchedInv (evs.foldl schedStep s)
  | [], _, hs => hs
  | e :: es, s, hs => schedInv_foldl es _ (schedInv_step s e hs)

/-- C1. FIFO completion order of the kernel command queue: in every event
sequence of submissions and head-settlements, the ids settled so far followed
by the ids still queued reconstruct the submission order, and the list of
settled ids is exactly 0, 1, 2, ...: the k-th promise to resolve or reject is
the k-th command submitted, so no later-submitted command completes before an
earlier one. -/
theorem c1_fifo_order (evs : List SchedEvent) :
    (schedRun evs).completed ++ (schedRun evs).queue = (schedRun evs).submitted ∧
    (schedRun evs).completed = List.range (schedRun evs).completed.length := by
  obtain ⟨h1, h2⟩ : SchedInv (schedRun evs) := schedInv_foldl evs schedInit schedInv_init
  refine ⟨h2, ?_⟩
  set s := schedRun evs with hs
  have hlen : s.completed.length ≤ s.nextId := by
    have hc := congrArg List.length h2
    rw [List.length_append] at hc
    have hr := congrArg List.length h1
    rw [List.length_range] at hr
    omega
  calc s.completed
      = List.take s.completed.length (s.completed ++ s.queue) :=
        (List.take_left _ _).symm
    _ = List.take s.completed.length (List.range s.nextId) := by rw [h2, h1]
    _ = List.range (min s.completed.length s.nextId) := List.take_range _ _
    _ = List.range s.completed.length := by rw [min_eq_left hlen]

/-- C2. The claimed guarantee "consecutive physical writes are never less
than minCommandDelay (150 ms) apart for arbitrary per-command timeouts" fails
on the code: `lastCommandTime` is assigned only on the success path of the
drain loop, so after a command that times out the computed wait is based on a
stale timestamp.  Failing input: a fresh kernel (lastCommandTime = 0) at
t = 1000 ms draining a command with timeoutMs = 10 whose response never
arrives, followed by any ordinary command; the writes land at t = 1000 and
t = 1050, only 50 ms apart. -/
theorem c2_min_spacing_violation :
    writeTimes [⟨10, none⟩, ⟨3000, some 10⟩] ⟨0, 1000⟩ = [1000, 1050] ∧
    1050 - 1000 < minCommandDelay := by
  constructor
  · rfl
  · decide

/-- C3 counterexample. Submitting one command and then disconnecting leaves
that command's promise pending (never rejected), and a further sendCommand
after the disconnect happily enqueues id 1 instead of failing fast - refuting
the claim that disconnect rejects every queued command and that later
submissions fail fast. -/
theorem c3_disconnect_counterexample :
    (disconnect (sendCommand kernelInit)).handles = [HandleState.pending] ∧
    HandleState.pending ≠ HandleState.rejected ∧
    (sendCommand (disconnect (sendCommand kernelInit))).queue = [1] := by
  refine ⟨rfl, ?_, rfl⟩
  decide

/-- C3 amended. What disconnect actually does: it clears the connected flag,
empties the queue and resets the processing flag, but settles no promise -
the promises of queued and in-flight commands are left exactly as they were,
so queued commands are dropped without ever being rejected; and sendCommand
performs no connection check, so a submission after disconnect is still
enqueued (it can only fail later by response timeout) rather than failing
fast. -/
theorem c3_disconnect_amended (s : KernelState) :
    (disconnect s).connected = false ∧
    (disconnect s).queue = [] ∧
    (disconnect s).isProcessingQueue = false ∧
    (disconnect s).handles = s.handles ∧
    (disconnect s).inFlight = s.inFlight ∧
    (sendCommand (disconnect s)).queue = [s.handles.length] ∧
    (sendCommand (disconnect s)).handles = s.handles ++ [HandleState.pending] := by
  refine ⟨rfl, rfl, rfl, rfl, rfl, ?_, rfl⟩
  simp [sendCommand, disconnect]

/-- C4 counterexample. The engine-speed worked example in the claim is
arithmetically wrong for the code's scaling rule: bytes 0x1A 0xF8 give
(26 * 256 + 248) / 4 = 1726, not 1798. -/
theorem c4_rpm_example_counterexample :
    PIDS.RPM.parse (some [0x1A, 0xF8]) = some 1726 ∧
    (1726 : ℚ) ≠ 1798 := by
  constructor
  · simp only [PIDS.RPM, List.getD]
    norm_num
  · norm_num

/-- C4 amended. The worked examples with the engine-speed value corrected to
1726.0: engine speed 0x1A 0xF8 decodes to 1726 RPM, coolant 0x7D to 85 °C,
control-module voltage 0x37 0x42 to 14.146 V, timing advance 0x80 to 0 °. -/
theorem c4_decoder_examples_amended :
    PIDS.RPM.parse (some [0x1A, 0xF8]) = some 1726 ∧
    PIDS.COOLANT.parse (some [0x7D]) = some 85 ∧
    PIDS.BATTERY.parse (some [0x37, 0x42]) = some (14.146 : ℚ) ∧
    PIDS.TIMING_ADVANCE.parse (some [0x80]) = some 0 := by
  refine ⟨?_, ?_, ?_, ?_⟩ <;>
    simp only [PIDS.RPM, PIDS.COOLANT, PIDS.BATTERY, PIDS.TIMING_ADVANCE,
      List.getD] <;>
    norm_num

/-- C6 counterexample. With supported-byte B = 0xFF every non-continuous
monitor's bit is set, yet the decode leaves the A/C-refrigerant monitor at
its prior (unsupported) value while marking the other seven supported: the
source's parseStatus never touches bit 0x10 of B, so only seven of the eight
non-continuous monitors obey the claimed rule. -/
theorem c6_acref_counterexample :
    (parseStatus initialMonitors 0x00 0xFF 0x00).monitors.acRefrigerant.supported
        = false ∧
    (parseStatus initialMonitors 0x00 0xFF 0x00).monitors.catalyst.supported = true ∧
    (parseStatus initialMonitors 0x00 0xFF 0x00).monitors.heatedCatalyst.supported
        = true ∧
    (parseStatus initialMonitors 0x00 0xFF 0x00).monitors.evapSystem.supported = true ∧
    (parseStatus initialMonitors 0x00 0xFF 0x00).monitors.secondaryAir.supported
        = true ∧
    (parseStatus initialMonitors 0x00 0xFF 0x00).monitors.oxygenSensor.supported
        = true ∧
    (parseStatus initialMonitors 0x00 0xFF 0x00).monitors.oxygenSensorHeater.supported
        = true ∧
    (parseStatus initialMonitors 0x00 0xFF 0x00).monitors.egrSystem.supported
        = true := by
  decide

/-- C10. Every parse function in the PIDS table is total on the null byte
array: applied to a null frame (as produced by parseOBDResponse for rejected
or malformed responses) it returns null rather than throwing. -/
theorem c10_parse_null_total : ∀ p ∈ pidsList, p.parse none = none := by
  decide

theorem maskNe (x k : Nat) : (x &&& 2 ^ k != 0) = x.testBit k := by
  rw [Nat.and_two_pow]
  have hp : 2 ^ k ≠ 0 := Nat.pos_iff_ne_zero.mp (Nat.pow_pos (by norm_num))
  cases h : x.testBit k <;> simp [h, hp]

theorem maskEq (x k : Nat) : (x &&& 2 ^ k == 0) = !x.testBit k := by
  rw [Nat.and_two_pow]
  have hp : 2 ^ k ≠ 0 := Nat.pos_iff_ne_zero.mp (Nat.pow_pos (by norm_num))
  cases h : x.testBit k <;> simp [h, hp]

/-- C6 amended. The readiness decode, with the eighth non-continuous monitor
corrected: MIL-on is bit 7 of A and the stored-code count is bits 0 to 6 of A
(A percent 128); the three continuous monitors are always supported and each
is complete exactly when its bit in C (4, 5, 6) is clear; SEVEN of the eight
non-continuous monitors (catalyst 0x01, heated catalyst 0x02, EVAP 0x04,
secondary air 0x08, O2 sensor 0x20, O2 sensor heater 0x40, EGR 0x80) are
supported exactly when their bit in B is set and, if supported, complete
exactly when their bit in C is clear; the A/C-refrigerant monitor (bit 0x10)
is never written by the decode and keeps its prior value.  The worked example
A = 0x83 gives MIL on and a count of 3. -/
theorem c6_readiness_amended (prior : Monitors) (a b c : Nat) :
    (parseStatus prior a b c).milStatus = a.testBit 7 ∧
    (parseStatus prior a b c).dtcCount = a % 128 ∧
    (parseStatus prior a b c).monitors.misfire.supported = true ∧
    (parseStatus prior a b c).monitors.misfire.complete = !c.testBit 4 ∧
    (parseStatus prior a b c).monitors.fuelSystem.supported = true ∧
    (parseStatus prior a b c).monitors.fuelSystem.complete = !c.testBit 5 ∧
    (parseStatus prior a b c).monitors.components.supported = true ∧
    (parseStatus prior a b c).monitors.components.complete = !c.testBit 6 ∧
    (parseStatus prior a b c).monitors.catalyst.supported = b.testBit 0 ∧
    (parseStatus prior a b c).monitors.catalyst.complete
      = (b.testBit 0 && !c.testBit 0) ∧
    (parseStatus prior a b c).monitors.heatedCatalyst.supported = b.testBit 1 ∧
    (parseStatus prior a b c).monitors.heatedCatalyst.complete
      = (b.testBit 1 && !c.testBit 1) ∧
    (parseStatus prior a b c).monitors.evapSystem.supported = b.testBit 2 ∧
    (parseStatus prior a b c).monitors.evapSystem.complete
      = (b.testBit 2 && !c.testBit 2) ∧
    (parseStatus prior a b c).monitors.secondaryAir.supported = b.testBit 3 ∧
    (parseStatus prior a b c).monitors.secondaryAir.complete
      = (b.testBit 3 && !c.testBit 3) ∧
    (parseStatus prior a b c).monitors.oxygenSensor.supported = b.testBit 5 ∧
    (parseStatus prior a b c).monitors.oxygenSensor.complete
      = (b.testBit 5 && !c.testBit 5) ∧
    (parseStatus prior a b c).monitors.oxygenSensorHeater.supported = b.testBit 6 ∧
    (parseStatus prior a b c).monitors.oxygenSensorHeater.complete
      = (b.testBit 6 && !c.testBit 6) ∧
    (parseStatus prior a b c).monitors.egrSystem.supported = b.testBit 7 ∧
    (parseStatus prior a b c).monitors.egrSystem.complete
      = (b.testBit 7 && !c.testBit 7) ∧
    (parseStatus prior a b c).monitors.acRefrigerant = prior.acRefrigerant ∧
    (parseStatus prior 0x83 b c).milStatus = true ∧
    (parseStatus prior 0x83 b c).dtcCount = 3 :=
  ⟨maskNe a 7, Nat.and_pow_two_sub_one_eq_mod a 7,
   rfl, maskEq c 4,
   rfl, maskEq c 5,
   rfl, maskEq c 6,
   maskNe b 0, congrArg₂ (· && ·) (maskNe b 0) (maskEq c 0),
   maskNe b 1, congrArg₂ (· && ·) (maskNe b 1) (maskEq c 1),
   maskNe b 2, congrArg₂ (· && ·) (maskNe b 2) (maskEq c 2),
   maskNe b 3, congrArg₂ (· && ·) (maskNe b 3) (maskEq c 3),
   maskNe b 5, congrArg₂ (· && ·) (maskNe b 5) (maskEq c 5),
   maskNe b 6, congrArg₂ (· && ·) (maskNe b 6) (maskEq c 6),
   maskNe b 7, congrArg₂ (· && ·) (maskNe b 7) (maskEq c 7),
   rfl,
   show ((0x83 : Nat) &&& 0x80 != 0) = true from by decide,
   show ((0x83 : Nat) &&& 0x7F) = 3 from by decide⟩

theorem byteConcat (hi lo : Nat) (h : lo < 256) :
    (hi <<< 8) ||| lo = hi * 256 + lo := by
  apply Nat.eq_of_testBit_eq
  intro j
  rw [Nat.testBit_or, Nat.testBit_shiftLeft]
  have h2 : hi * 256 + lo = 2 ^ 8 * hi + lo := by ring
  rw [h2, Nat.testBit_mul_pow_two_add hi (by simpa using h) j]
  by_cases hj : j < 8
  · have hn : ¬ (8 ≤ j) := by omega
    simp [hj, hn]
  · have h8 : 8 ≤ j := by omega
    have hlt : lo < 2 ^ j :=
      lt_of_lt_of_le (by simpa using h : lo < 2 ^ 8)
        (Nat.pow_le_pow_right (by norm_num) h8)
    rw [Nat.testBit_lt_two_pow hlt]
    simp [hj, h8]

/-- For byte-valued low bytes the source's shift/or construction agrees with
the spec's arithmetic two's-complement reading of the raw 16-bit value. -/
theorem parseSignedInt16_spec (hi lo : Nat) (h : lo < 256) :
    parseSignedInt16 hi lo = specSigned16 (hi * 256 + lo) := by
  unfold parseSignedInt16 specSigned16
  rw [byteConcat hi lo h]

/-- C5 counterexample. For the record with raw min = 1, max = 0, current = 0
the range max - min is non-zero (it is negative), so the claim's formula
gives (current - min) / (max - min) * 100 = 100; but the code tests
`range > 0` (strictly positive), not non-zero, and returns 0. -/
theorem c5_percent_negative_range_counterexample :
    (parseRecord 0 1 0 0 0 0).maxVal - (parseRecord 0 1 0 0 0 0).minVal ≠ 0 ∧
    (parseRecord 0 1 0 0 0 0).percentToLimit = 0 ∧
    ((parseRecord 0 1 0 0 0 0).value - (parseRecord 0 1 0 0 0 0).minVal) /
        ((parseRecord 0 1 0 0 0 0).maxVal - (parseRecord 0 1 0 0 0 0).minVal) * 100
      = 100 ∧
    (0 : ℚ) ≠ 100 := by
  have h1 : parseSignedInt16 0 1 = 1 := by decide
  have h0 : parseSignedInt16 0 0 = 0 := by decide
  refine ⟨?_, ?_, ?_, by norm_num⟩ <;>
    · simp only [parseRecord, h1, h0, testScale]
      norm_num

/-- C5 amended. Each 8-byte record's min, max and current are the signed
16-bit two's-complement reading of their byte pair (values above 32767
become negative by subtracting 65536) times the scale factor 0.001, and
percentToLimit equals (current - min) / (max - min) * 100 whenever the range
max - min is strictly POSITIVE (not merely non-zero) and 0 otherwise -
including for negative ranges; the value is not clamped to the 0-100 range,
as the final record (percent 200) shows. -/
theorem c5_record_decode_amended (b2 b3 b4 b5 b6 b7 : Nat)
    (h3 : b3 < 256) (h5 : b5 < 256) (h7 : b7 < 256) :
    (parseRecord b2 b3 b4 b5 b6 b7).minVal
        = (specSigned16 (b2 * 256 + b3) : ℚ) / 1000 ∧
    (parseRecord b2 b3 b4 b5 b6 b7).maxVal
        = (specSigned16 (b4 * 256 + b5) : ℚ) / 1000 ∧
    (parseRecord b2 b3 b4 b5 b6 b7).value
        = (specSigned16 (b6 * 256 + b7) : ℚ) / 1000 ∧
    (parseRecord b2 b3 b4 b5 b6 b7).percentToLimit
        = (if specSigned16 (b4 * 256 + b5) - specSigned16 (b2 * 256 + b3) > 0
           then ((specSigned16 (b6 * 256 + b7) - specSigned16 (b2 * 256 + b3) : ℤ) : ℚ)
                  / ((specSigned16 (b4 * 256 + b5) - specSigned16 (b2 * 256 + b3) : ℤ) : ℚ)
                  * 100
           else 0) ∧
    (parseRecord 0 0 0 1 0 2).percentToLimit = 200 := by
  have e2 := parseSignedInt16_spec b2 b3 h3
  have e4 := parseSignedInt16_spec b4 b5 h5
  have e6 := parseSignedInt16_spec b6 b7 h7
  have hA : parseSignedInt16 0 0 = 0 := by decide
  have hB : parseSignedInt16 0 1 = 1 := by decide
  have hC : parseSignedInt16 0 2 = 2 := by decide
  refine ⟨?_, ?_, ?_, ?_, ?_⟩
  · simp only [parseRecord, e2, testScale]
    ring
  · simp only [parseRecord, e4, testScale]
    ring
  · simp only [parseRecord, e6, testScale]
    ring
  · simp only [parseRecord, e2, e4, e6]
  · simp only [parseRecord, hA, hB, hC, testScale]
    norm_num

/-- C5 witness: the amended statement applied to the concrete record with
bytes 0 1 0 0 0 0. -/
theorem c5_record_decode_witness :
    ((1 : Nat) < 256 ∧ (0 : Nat) < 256 ∧ (0 : Nat) < 256) ∧
    ((parseRecord 0 1 0 0 0 0).minVal = (specSigned16 (0 * 256 + 1) : ℚ) / 1000 ∧
     (parseRecord 0 1 0 0 0 0).maxVal = (specSigned16 (0 * 256 + 0) : ℚ) / 1000 ∧
     (parseRecord 0 1 0 0 0 0).value = (specSigned16 (0 * 256 + 0) : ℚ) / 1000 ∧
     (parseRecord 0 1 0 0 0 0).percentToLimit
        = (if specSigned16 (0 * 256 + 0) - specSigned16 (0 * 256 + 1) > 0
           then ((specSigned16 (0 * 256 + 0) - specSigned16 (0 * 256 + 1) : ℤ) : ℚ)
                  / ((specSigned16 (0 * 256 + 0) - specSigned16 (0 * 256 + 1) : ℤ) : ℚ)
                  * 100
           else 0) ∧
     (parseRecord 0 0 0 1 0 2).percentToLimit = 200) :=
  ⟨⟨by decide, by decide, by decide⟩,
   c5_record_decode_amended 0 1 0 0 0 0 (by decide) (by decide) (by decide)⟩

theorem fetchStep_false {σ : Type} (outcome : FetchOutcome) (code : String)
    (s : σ) (clear : σ → σ) : fetchStep false outcome code s clear = (s, []) := rfl

theorem fetchStep_fst_or {σ : Type} (flag : Bool) (outcome : FetchOutcome)
    (code : String) (s : σ) (clear : σ → σ) :
    (fetchStep flag outcome code s clear).1 = s ∨
    (fetchStep flag outcome code s clear).1 = clear s := by
  unfold fetchStep
  cases flag
  · exact Or.inl rfl
  · cases outcome
    · exact Or.inl rfl
    · exact Or.inr rfl

theorem fetchStep_snd_or {σ : Type} (flag : Bool) (outcome : FetchOutcome)
    (code : String) (s : σ) (clear : σ → σ) :
    (fetchStep flag outcome code s clear).2 = [] ∨
    (fetchStep flag outcome code s clear).2 = [code] := by
  unfold fetchStep
  cases flag
  · exact Or.inl rfl
  · exact Or.inr rfl

theorem fetchStep_pres {σ : Type} (P : σ → Prop) (flag : Bool)
    (outcome : FetchOutcome) (code : String) (s : σ) (clear : σ → σ)
    (hs : P s) (hc : P (clear s)) : P (fetchStep flag outcome code s clear).1 := by
  rcases fetchStep_fst_or flag outcome code s clear with h | h <;> rw [h] <;> assumption

theorem fetchStep_notMem {σ : Type} (flag : Bool) (outcome : FetchOutcome)
    (code : String) (s : σ) (clear : σ → σ) (x : String) (hx : x ≠ code) :
    x ∉ (fetchStep flag outcome code s clear).2 := by
  rcases fetchStep_snd_or flag outcome code s clear with h | h <;> rw [h]
  · exact List.not_mem_nil x
  · simp [hx]

theorem runTicks_writes_nil {ε σ : Type} (tick : ε → σ → σ × List String)
    (P : σ → Prop)
    (hstep : ∀ e s, P s → (tick e s).2 = [] ∧ P (tick e s).1) :
    ∀ (es : List ε) (s : σ), P s → (runTicks tick es s).2 = []
  | [], _, _ => rfl
  | e :: es, s, h => by
      obtain ⟨h1, h2⟩ := hstep e s h
      have h3 := runTicks_writes_nil tick P hstep es (tick e s).1 h2
      simp only [runTicks]
      rw [h1, h3]
      rfl

theorem runTicks_pres {ε σ : Type} (tick : ε → σ → σ × List String)
    (P : σ → Prop) (x : String)
    (hstep : ∀ e s, P s → P (tick e s).1 ∧ x ∉ (tick e s).2) :
    ∀ (es : List ε) (s : σ), P s →
      P (runTicks tick es s).1 ∧ x ∉ (runTicks tick es s).2
  | [], s, h => ⟨h, List.not_mem_nil x⟩
  | e :: es, s, h => by
      obtain ⟨h1, h2⟩ := hstep e s h
      obtain ⟨h3, h4⟩ := runTicks_pres tick P x hstep es (tick e s).1 h1
      refine ⟨h3, ?_⟩
      simp only [runTicks]
      intro hmem
      rcases List.mem_append.mp hmem with hc | hc
      · exact h2 hc
      · exact h4 hc

theorem timingTick_breaker (e : TimingEnv) (s : TimingState)
    (h : maxErrors ≤ s.consecutiveErrors) :
    (timingTick e s).2 = [] ∧ maxErrors ≤ (timingTick e s).1.consecutiveErrors := by
  unfold timingTick
  split
  · exact ⟨rfl, h⟩
  · refine ⟨rfl, ?_⟩
    split
    · exact Nat.le_succ_of_le h
    · exact h

theorem emissionsTick_breaker (e : EmissionsEnv) (s : EmissionsState)
    (h : maxErrors ≤ s.consecutiveErrors) :
    (emissionsTick e s).2 = [] ∧
    maxErrors ≤ (emissionsTick e s).1.consecutiveErrors := by
  unfold emissionsTick
  split
  · exact ⟨rfl, h⟩
  · refine ⟨rfl, ?_⟩
    split
    · exact Nat.le_succ_of_le h
    · exact h

theorem batteryTick_breaker (e : BatteryEnv) (s : BatteryState)
    (h : maxErrors ≤ s.consecutiveErrors) :
    (batteryTick e s).2 = [] ∧ maxErrors ≤ (batteryTick e s).1.consecutiveErrors := by
  unfold batteryTick
  split
  · exact ⟨rfl, h⟩
  · refine ⟨rfl, ?_⟩
    split
    · exact Nat.le_succ_of_le h
    · exact h

/-- C7. Circuit breaker of the polling modules: once a module's counter of
consecutive fetch failures has reached maxErrors (3), every subsequent run of
ticks issues zero sendCommand requests (the counter is never decreased by a
tick, so the breaker stays open until an explicit external reset such as the
shutdown/reconnect path); and a successful update resets the counter to 0 -
for timing and emissions any completed hardware update does (their fetchData
swallows all rejections, so the update's catch never runs), and for battery
any update whose fetch produced a non-null voltage does. -/
theorem c7_circuit_breaker :
    (∀ (es : List TimingEnv) (s : TimingState),
        maxErrors ≤ s.consecutiveErrors → (timingRun es s).2 = []) ∧
    (∀ (es : List EmissionsEnv) (s : EmissionsState),
        maxErrors ≤ s.consecutiveErrors → (emissionsRun es s).2 = []) ∧
    (∀ (es : List BatteryEnv) (s : BatteryState),
        maxErrors ≤ s.consecutiveErrors → (batteryRun es s).2 = []) ∧
    (∀ (e : TimingEnv) (s : TimingState), e.simulating = false →
        (timingUpdate e s).1.consecutiveErrors = 0) ∧
    (∀ (e : EmissionsEnv) (s : EmissionsState), e.simulating = false →
        (emissionsUpdate e s).1.consecutiveErrors = 0) ∧
    (∀ (e : BatteryEnv) (s : BatteryState) (v : ℚ), e.simulating = false →
        (batteryFetchVoltage e s).2.2 = some v →
        (batteryUpdate e s).1.consecutiveErrors = 0) := by
  refine ⟨?_, ?_, ?_, ?_, ?_, ?_⟩
  · exact runTicks_writes_nil timingTick _ timingTick_breaker
  · exact runTicks_writes_nil emissionsTick _ emissionsTick_breaker
  · exact runTicks_writes_nil batteryTick _ batteryTick_breaker
  · intro e s h
    simp [timingUpdate, h]
  · intro e s h
    simp [emissionsUpdate, h]
  · intro e s v h hv
    simp [batteryUpdate, h, hv]

/-- C7 witness: concrete instances - a tripped module (counter 3) runs two
ticks without a single request, and concrete hardware updates reset the
counter. -/
theorem c7_circuit_breaker_witness :
    (maxErrors ≤ 3 ∧
      (timingRun
        [⟨true, true, false, FetchOutcome.ok, FetchOutcome.ok⟩,
         ⟨true, true, false, FetchOutcome.reject, FetchOutcome.reject⟩]
        ⟨true, true, true, 3⟩).2 = []) ∧
    (maxErrors ≤ 4 ∧
      (emissionsRun
        [⟨true, true, false, FetchOutcome.ok, FetchOutcome.ok, FetchOutcome.ok,
          FetchOutcome.ok, FetchOutcome.ok⟩]
        ⟨true, true, true, true, true, true, 4⟩).2 = []) ∧
    (maxErrors ≤ 3 ∧
      (batteryRun [⟨true, true, false, FetchOutcome.ok, some [0, 0]⟩]
        ⟨true, true, 3⟩).2 = []) ∧
    ((⟨true, true, false, FetchOutcome.reject, FetchOutcome.ok⟩ :
        TimingEnv).simulating = false ∧
      (timingUpdate ⟨true, true, false, FetchOutcome.reject, FetchOutcome.ok⟩
        ⟨true, true, true, 2⟩).1.consecutiveErrors = 0) ∧
    ((⟨true, true, false, FetchOutcome.ok, FetchOutcome.ok, FetchOutcome.ok,
        FetchOutcome.ok, FetchOutcome.ok⟩ : EmissionsEnv).simulating = false ∧
      (emissionsUpdate
        ⟨true, true, false, FetchOutcome.ok, FetchOutcome.ok, FetchOutcome.ok,
          FetchOutcome.ok, FetchOutcome.ok⟩
        ⟨true, true, true, true, true, true, 2⟩).1.consecutiveErrors = 0) ∧
    ((⟨true, true, false, FetchOutcome.ok, some [0, 0]⟩ :
        BatteryEnv).simulating = false ∧
      (batteryFetchVoltage ⟨true, true, false, FetchOutcome.ok, some [0, 0]⟩
        ⟨true, true, 2⟩).2.2 = some 0 ∧
      (batteryUpdate ⟨true, true, false, FetchOutcome.ok, some [0, 0]⟩
        ⟨true, true, 2⟩).1.consecutiveErrors = 0) := by
  have hb : (batteryFetchVoltage ⟨true, true, false, FetchOutcome.ok, some [0, 0]⟩
      ⟨true, true, 2⟩).2.2 = some 0 := by
    simp only [batteryFetchVoltage, PIDS.BATTERY, List.getD]
    norm_num
  refine ⟨⟨by decide, ?_⟩, ⟨by decide, ?_⟩, ⟨by decide, ?_⟩,
          ⟨rfl, ?_⟩, ⟨rfl, ?_⟩, ⟨rfl, hb, ?_⟩⟩
  · exact c7_circuit_breaker.1 _ _ (by decide)
  · exact c7_circuit_breaker.2.1 _ _ (by decide)
  · exact c7_circuit_breaker.2.2.1 _ _ (by decide)
  · exact c7_circuit_breaker.2.2.2.1 _ _ rfl
  · exact c7_circuit_breaker.2.2.2.2.1 _ _ rfl
  · exact c7_circuit_breaker.2.2.2.2.2 _ _ 0 rfl hb

theorem timingFetchData_timing (e : TimingEnv) (s : TimingState)
    (h : s.supportedTiming = false) :
    (timingFetchData e s).1.supportedTiming = false ∧
    PIDS.TIMING_ADVANCE.code ∉ (timingFetchData e s).2 := by
  simp only [timingFetchData]
  set q1 := fetchStep s.supportedTiming e.timingFetch PIDS.TIMING_ADVANCE.code s
      (fun t : TimingState => { t with supportedTiming := false }) with hq1
  set q2 := fetchStep q1.1.supportedLoad e.loadFetch PIDS.ENGINE_LOAD.code q1.1
      (fun t : TimingState => { t with supportedLoad := false }) with hq2
  have f0 : q1 = (s, []) := by rw [hq1, h]; exact fetchStep_false _ _ _ _
  have f1 : q1.1.supportedTiming = false := by rw [f0]; exact h
  have f2 : q2.1.supportedTiming = false := by
    rw [hq2]
    exact fetchStep_pres (fun t : TimingState => t.supportedTiming = false) _ _ _ _ _ f1 f1
  have w1 : q1.2 = [] := by rw [f0]
  have w2 : PIDS.TIMING_ADVANCE.code ∉ q2.2 := by
    rw [hq2]; exact fetchStep_notMem _ _ _ _ _ _ (by decide)
  refine ⟨f2, ?_⟩
  rw [w1, List.nil_append]
  exact w2

theorem timingFetchData_load (e : TimingEnv) (s : TimingState)
    (h : s.supportedLoad = false) :
    (timingFetchData e s).1.supportedLoad = false ∧
    PIDS.ENGINE_LOAD.code ∉ (timingFetchData e s).2 := by
  simp only [timingFetchData]
  set q1 := fetchStep s.supportedTiming e.timingFetch PIDS.TIMING_ADVANCE.code s
      (fun t : TimingState => { t with supportedTiming := false }) with hq1
  set q2 := fetchStep q1.1.supportedLoad e.loadFetch PIDS.ENGINE_LOAD.code q1.1
      (fun t : TimingState => { t with supportedLoad := false }) with hq2
  have f1 : q1.1.supportedLoad = false := by
    rw [hq1]
    exact fetchStep_pres (fun t : TimingState => t.supportedLoad = false) _ _ _ _ _ h h
  have f0 : q2 = (q1.1, []) := by rw [hq2, f1]; exact fetchStep_false _ _ _ _
  have f2 : q2.1.supportedLoad = false := by rw [f0]; exact f1
  have w1 : PIDS.ENGINE_LOAD.code ∉ q1.2 := by
    rw [hq1]; exact fetchStep_notMem _ _ _ _ _ _ (by decide)
  have w2 : q2.2 = [] := by rw [f0]
  refine ⟨f2, ?_⟩
  rw [w2, List.append_nil]
  exact w1

theorem emissionsFetchData_stft1 (e : EmissionsEnv) (s : EmissionsState)
    (h : s.stft1 = false) :
    (emissionsFetchData e s).1.stft1 = false ∧
    PIDS.SHORT_FUEL_TRIM_1.code ∉ (emissionsFetchData e s).2 := by
  simp only [emissionsFetchData]
  set q1 := fetchStep s.stft1 e.stftFetch PIDS.SHORT_FUEL_TRIM_1.code s
      (fun t : EmissionsState => { t with stft1 := false }) with hq1
  set q2 := fetchStep q1.1.ltft1 e.ltftFetch PIDS.LONG_FUEL_TRIM_1.code q1.1
      (fun t : EmissionsState => { t with ltft1 := false }) with hq2
  set q3 := fetchStep q2.1.o2s1 e.o2s1Fetch PIDS.O2_B1S1.code q2.1
      (fun t : EmissionsState => { t with o2s1 := false }) with hq3
  set q4 := fetchStep q3.1.o2s2 e.o2s2Fetch PIDS.O2_B1S2.code q3.1
      (fun t : EmissionsState => { t with o2s2 := false }) with hq4
  set q5 := fetchStep q4.1.maf e.mafFetch PIDS.MAF_RATE.code q4.1
      (fun t : EmissionsState => { t with maf := false }) with hq5
  have f0 : q1 = (s, []) := by rw [hq1, h]; exact fetchStep_false _ _ _ _
  have f1 : q1.1.stft1 = false := by rw [f0]; exact h
  have f2 : q2.1.stft1 = false := by
    rw [hq2]; exact fetchStep_pres (fun t : EmissionsState => t.stft1 = false) _ _ _ _ _ f1 f1
  have f3 : q3.1.stft1 = false := by
    rw [hq3]; exact fetchStep_pres (fun t : EmissionsState => t.stft1 = false) _ _ _ _ _ f2 f2
  have f4 : q4.1.stft1 = false := by
    rw [hq4]; exact fetchStep_pres (fun t : EmissionsState => t.stft1 = false) _ _ _ _ _ f3 f3
  have f5 : q5.1.stft1 = false := by
    rw [hq5]; exact fetchStep_pres (fun t : EmissionsState => t.stft1 = false) _ _ _ _ _ f4 f4
  have w1 : q1.2 = [] := by rw [f0]
  have w2 : PIDS.SHORT_FUEL_TRIM_1.code ∉ q2.2 := by
    rw [hq2]; exact fetchStep_notMem _ _ _ _ _ _ (by decide)
  have w3 : PIDS.SHORT_FUEL_TRIM_1.code ∉ q3.2 := by
    rw [hq3]; exact fetchStep_notMem _ _ _ _ _ _ (by decide)
  have w4 : PIDS.SHORT_FUEL_TRIM_1.code ∉ q4.2 := by
    rw [hq4]; exact fetchStep_notMem _ _ _ _ _ _ (by decide)
  have w5 : PIDS.SHORT_FUEL_TRIM_1.code ∉ q5.2 := by
    rw [hq5]; exact fetchStep_notMem _ _ _ _ _ _ (by decide)
  refine ⟨f5, ?_⟩
  rw [w1, List.nil_append]
  intro hmem
  rcases List.mem_append.mp hmem with hc | hc
  · rcases List.mem_append.mp hc with hd | hd
    · rcases List.mem_append.mp hd with he | he
      · exact w2 he
      · exact w3 he
    · exact w4 hd
  · exact w5 hc

theorem emissionsFetchData_ltft1 (e : EmissionsEnv) (s : EmissionsState)
    (h : s.ltft1 = false) :
    (emissionsFetchData e s).1.ltft1 = false ∧
    PIDS.LONG_FUEL_TRIM_1.code ∉ (emissionsFetchData e s).2 := by
  simp only [emissionsFetchData]
  set q1 := fetchStep s.stft1 e.stftFetch PIDS.SHORT_FUEL_TRIM_1.code s
      (fun t : EmissionsState => { t with stft1 := false }) with hq1
  set q2 := fetchStep q1.1.ltft1 e.ltftFetch PIDS.LONG_FUEL_TRIM_1.code q1.1
      (fun t : EmissionsState => { t with ltft1 := false }) with hq2
  set q3 := fetchStep q2.1.o2s1 e.o2s1Fetch PIDS.O2_B1S1.code q2.1
      (fun t : EmissionsState => { t with o2s1 := false }) with hq3
  set q4 := fetchStep q3.1.o2s2 e.o2s2Fetch PIDS.O2_B1S2.code q3.1
      (fun t : EmissionsState => { t with o2s2 := false }) with hq4
  set q5 := fetchStep q4.1.maf e.mafFetch PIDS.MAF_RATE.code q4.1
      (fun t : EmissionsState => { t with maf := false }) with hq5
  have f1 : q1.1.ltft1 = false := by
    rw [hq1]; exact fetchStep_pres (fun t : EmissionsState => t.ltft1 = false) _ _ _ _ _ h h
  have f0 : q2 = (q1.1, []) := by rw [hq2, f1]; exact fetchStep_false _ _ _ _
  have f2 : q2.1.ltft1 = false := by rw [f0]; exact f1
  have f3 : q3.1.ltft1 = false := by
    rw [hq3]; exact fetchStep_pres (fun t : EmissionsState => t.ltft1 = false) _ _ _ _ _ f2 f2
  have f4 : q4.1.ltft1 = false := by
    rw [hq4]; exact fetchStep_pres (fun t : EmissionsState => t.ltft1 = false) _ _ _ _ _ f3 f3
  have f5 : q5.1.ltft1 = false := by
    rw [hq5]; exact fetchStep_pres (fun t : EmissionsState => t.ltft1 = false) _ _ _ _ _ f4 f4
  have w1 : PIDS.LONG_FUEL_TRIM_1.code ∉ q1.2 := by
    rw [hq1]; exact fetchStep_notMem _ _ _ _ _ _ (by decide)
  have w2 : q2.2 = [] := by rw [f0]
  have w3 : PIDS.LONG_FUEL_TRIM_1.code ∉ q3.2 := by
    rw [hq3]; exact fetchStep_notMem _ _ _ _ _ _ (by decide)
  have w4 : PIDS.LONG_FUEL_TRIM_1.code ∉ q4.2 := by
    rw [hq4]; exact fetchStep_notMem _ _ _ _ _ _ (by decide)
  have w5 : PIDS.LONG_FUEL_TRIM_1.code ∉ q5.2 := by
    rw [hq5]; exact fetchStep_notMem _ _ _ _ _ _ (by decide)
  refine ⟨f5, ?_⟩
  rw [w2, List.append_nil]
  intro hmem
  rcases List.mem_append.mp hmem with hc | hc
  · rcases List.mem_append.mp hc with hd | hd
    · rcases List.mem_append.mp hd with he | he
      · exact w1 he
      · exact w3 he
    · exact w4 hd
  · exact w5 hc

theorem emissionsFetchData_o2s1 (e : EmissionsEnv) (s : EmissionsState)
    (h : s.o2s1 = false) :
    (emissionsFetchData e s).1.o2s1 = false ∧
    PIDS.O2_B1S1.code ∉ (emissionsFetchData e s).2 := by
  simp only [emissionsFetchData]
  set q1 := fetchStep s.stft1 e.stftFetch PIDS.SHORT_FUEL_TRIM_1.code s
      (fun t : EmissionsState => { t with stft1 := false }) with hq1
  set q2 := fetchStep q1.1.ltft1 e.ltftFetch PIDS.LONG_FUEL_TRIM_1.code q1.1
      (fun t : EmissionsState => { t with ltft1 := false }) with hq2
  set q3 := fetchStep q2.1.o2s1 e.o2s1Fetch PIDS.O2_B1S1.code q2.1
      (fun t : EmissionsState => { t with o2s1 := false }) with hq3
  set q4 := fetchStep q3.1.o2s2 e.o2s2Fetch PIDS.O2_B1S2.code q3.1
      (fun t : EmissionsState => { t with o2s2 := false }) with hq4
  set q5 := fetchStep q4.1.maf e.mafFetch PIDS.MAF_RATE.code q4.1
      (fun t : EmissionsState => { t with maf := false }) with hq5
  have f1 : q1.1.o2s1 = false := by
    rw [hq1]; exact fetchStep_pres (fun t : EmissionsState => t.o2s1 = false) _ _ _ _ _ h h
  have f2 : q2.1.o2s1 = false := by
    rw [hq2]; exact fetchStep_pres (fun t : EmissionsState => t.o2s1 = false) _ _ _ _ _ f1 f1
  have f0 : q3 = (q2.1, []) := by rw [hq3, f2]; exact fetchStep_false _ _ _ _
  have f3 : q3.1.o2s1 = false := by rw [f0]; exact f2
  have f4 : q4.1.o2s1 = false := by
    rw [hq4]; exact fetchStep_pres (fun t : EmissionsState => t.o2s1 = false) _ _ _ _ _ f3 f3
  have f5 : q5.1.o2s1 = false := by
    rw [hq5]; exact fetchStep_pres (fun t : EmissionsState => t.o2s1 = false) _ _ _ _ _ f4 f4
  have w1 : PIDS.O2_B1S1.code ∉ q1.2 := by
    rw [hq1]; exact fetchStep_notMem _ _ _ _ _ _ (by decide)
  have w2 : PIDS.O2_B1S1.code ∉ q2.2 := by
    rw [hq2]; exact fetchStep_notMem _ _ _ _ _ _ (by decide)
  have w3 : q3.2 = [] := by rw [f0]
  have w4 : PIDS.O2_B1S1.code ∉ q4.2 := by
    rw [hq4]; exact fetchStep_notMem _ _ _ _ _ _ (by decide)
  have w5 : PIDS.O2_B1S1.code ∉ q5.2 := by
    rw [hq5]; exact fetchStep_notMem _ _ _ _ _ _ (by decide)
  refine ⟨f5, ?_⟩
  rw [w3, List.append_nil]
  intro hmem
  rcases List.mem_append.mp hmem with hc | hc
  · rcases List.mem_append.mp hc with hd | hd
    · rcases List.mem_append.mp hd with he | he
      · exact w1 he
      · exact w2 he
    · exact w4 hd
  · exact w5 hc

theorem emissionsFetchData_o2s2 (e : EmissionsEnv) (s : EmissionsState)
    (h : s.o2s2 = false) :
    (emissionsFetchData e s).1.o2s2 = false ∧
    PIDS.O2_B1S2.code ∉ (emissionsFetchData e s).2 := by
  simp only [emissionsFetchData]
  set q1 := fetchStep s.stft1 e.stftFetch PIDS.SHORT_FUEL_TRIM_1.code s
      (fun t : EmissionsState => { t with stft1 := false }) with hq1
  set q2 := fetchStep q1.1.ltft1 e.ltftFetch PIDS.LONG_FUEL_TRIM_1.code q1.1
      (fun t : EmissionsState => { t with ltft1 := false }) with hq2
  set q3 := fetchStep q2.1.o2s1 e.o2s1Fetch PIDS.O2_B1S1.code q2.1
      (fun t : EmissionsState => { t with o2s1 := false }) with hq3
  set q4 := fetchStep q3.1.o2s2 e.o2s2Fetch PIDS.O2_B1S2.code q3.1
      (fun t : EmissionsState => { t with o2s2 := false }) with hq4
  set q5 := fetchStep q4.1.maf e.mafFetch PIDS.MAF_RATE.code q4.1
      (fun t : EmissionsState => { t with maf := false }) with hq5
  have f1 : q1.1.o2s2 = false := by
    rw [hq1]; exact fetchStep_pres (fun t : EmissionsState => t.o2s2 = false) _ _ _ _ _ h h
  have f2 : q2.1.o2s2 = false := by
    rw [hq2]; exact fetchStep_pres (fun t : EmissionsState => t.o2s2 = false) _ _ _ _ _ f1 f1
  have f3 : q3.1.o2s2 = false := by
    rw [hq3]; exact fetchStep_pres (fun t : EmissionsState => t.o2s2 = false) _ _ _ _ _ f2 f2
  have f0 : q4 = (q3.1, []) := by rw [hq4, f3]; exact fetchStep_false _ _ _ _
  have f4 : q4.1.o2s2 = false := by rw [f0]; exact f3
  have f5 : q5.1.o2s2 = false := by
    rw [hq5]; exact fetchStep_pres (fun t : EmissionsState => t.o2s2 = false) _ _ _ _ _ f4 f4
  have w1 : PIDS.O2_B1S2.code ∉ q1.2 := by
    rw [hq1]; exact fetchStep_notMem _ _ _ _ _ _ (by decide)
  have w2 : PIDS.O2_B1S2.code ∉ q2.2 := by
    rw [hq2]; exact fetchStep_notMem _ _ _ _ _ _ (by decide)
  have w3 : PIDS.O2_B1S2.code ∉ q3.2 := by
    rw [hq3]; exact fetchStep_notMem _ _ _ _ _ _ (by decide)
  have w4 : q4.2 = [] := by rw [f0]
  have w5 : PIDS.O2_B1S2.code ∉ q5.2 := by
    rw [hq5]; exact fetchStep_notMem _ _ _ _ _ _ (by decide)
  refine ⟨f5, ?_⟩
  rw [w4, List.append_nil]
  intro hmem
  rcases List.mem_append.mp hmem with hc | hc
  · rcases List.mem_append.mp hc with hd | hd
    · rcases List.mem_append.mp hd with he | he
      · exact w1 he
      · exact w2 he
    · exact w3 hd
  · exact w5 hc

theorem emissionsFetchData_maf (e : EmissionsEnv) (s : EmissionsState)
    (h : s.maf = false) :
    (emissionsFetchData e s).1.maf = false ∧
    PIDS.MAF_RATE.code ∉ (emissionsFetchData e s).2 := by
  simp only [emissionsFetchData]
  set q1 := fetchStep s.stft1 e.stftFetch PIDS.SHORT_FUEL_TRIM_1.code s
      (fun t : EmissionsState => { t with stft1 := false }) with hq1
  set q2 := fetchStep q1.1.ltft1 e.ltftFetch PIDS.LONG_FUEL_TRIM_1.code q1.1
      (fun t : EmissionsState => { t with ltft1 := false }) with hq2
  set q3 := fetchStep q2.1.o2s1 e.o2s1Fetch PIDS.O2_B1S1.code q2.1
      (fun t : EmissionsState => { t with o2s1 := false }) with hq3
  set q4 := fetchStep q3.1.o2s2 e.o2s2Fetch PIDS.O2_B1S2.code q3.1
      (fun t : EmissionsState => { t with o2s2 := false }) with hq4
  set q5 := fetchStep q4.1.maf e.mafFetch PIDS.MAF_RATE.code q4.1
      (fun t : EmissionsState => { t with maf := false }) with hq5
  have f1 : q1.1.maf = false := by
    rw [hq1]; exact fetchStep_pres (fun t : EmissionsState => t.maf = false) _ _ _ _ _ h h
  have f2 : q2.1.maf = false := by
    rw [hq2]; exact fetchStep_pres (fun t : EmissionsState => t.maf = false) _ _ _ _ _ f1 f1
  have f3 : q3.1.maf = false := by
    rw [hq3]; exact fetchStep_pres (fun t : EmissionsState => t.maf = false) _ _ _ _ _ f2 f2
  have f4 : q4.1.maf = false := by
    rw [hq4]; exact fetchStep_pres (fun t : EmissionsState => t.maf = false) _ _ _ _ _ f3 f3
  have f0 : q5 = (q4.1, []) := by rw [hq5, f4]; exact fetchStep_false _ _ _ _
  have f5 : q5.1.maf = false := by rw [f0]; exact f4
  have w1 : PIDS.MAF_RATE.code ∉ q1.2 := by
    rw [hq1]; exact fetchStep_notMem _ _ _ _ _ _ (by decide)
  have w2 : PIDS.MAF_RATE.code ∉ q2.2 := by
    rw [hq2]; exact fetchStep_notMem _ _ _ _ _ _ (by decide)
  have w3 : PIDS.MAF_RATE.code ∉ q3.2 := by
    rw [hq3]; exact fetchStep_notMem _ _ _ _ _ _ (by decide)
  have w4 : PIDS.MAF_RATE.code ∉ q4.2 := by
    rw [hq4]; exact fetchStep_notMem _ _ _ _ _ _ (by decide)
  have w5 : q5.2 = [] := by rw [f0]
  refine ⟨f5, ?_⟩
  rw [w5, List.append_nil]
  intro hmem
  rcases List.mem_append.mp hmem with hc | hc
  · rcases List.mem_append.mp hc with hd | hd
    · rcases List.mem_append.mp hd with he | he
      · exact w1 he
      · exact w2 he
    · exact w3 hd
  · exact w4 hc

theorem batteryFetchVoltage_unsupported (e : BatteryEnv) (s : BatteryState)
    (h : s.supported = false) : batteryFetchVoltage e s = (s, [], none) := by
  unfold batteryFetchVoltage
  rw [h]
  rfl

theorem timingTick_timing (e : TimingEnv) (s : TimingState)
    (h : s.supportedTiming = false) :
    (timingTick e s).1.supportedTiming = false ∧
    PIDS.TIMING_ADVANCE.code ∉ (timingTick e s).2 := by
  unfold timingTick timingUpdate
  split
  · exact ⟨h, List.not_mem_nil _⟩
  · split
    · refine ⟨?_, List.not_mem_nil _⟩
      split
      · exact h
      · exact h
    · split
      · exact ⟨h, List.not_mem_nil _⟩
      · exact timingFetchData_timing e s h

theorem timingTick_load (e : TimingEnv) (s : TimingState)
    (h : s.supportedLoad = false) :
    (timingTick e s).1.supportedLoad = false ∧
    PIDS.ENGINE_LOAD.code ∉ (timingTick e s).2 := by
  unfold timingTick timingUpdate
  split
  · exact ⟨h, List.not_mem_nil _⟩
  · split
    · refine ⟨?_, List.not_mem_nil _⟩
      split
      · exact h
      · exact h
    · split
      · exact ⟨h, List.not_mem_nil _⟩
      · exact timingFetchData_load e s h

theorem emissionsTick_stft1 (e : EmissionsEnv) (s : EmissionsState)
    (h : s.stft1 = false) :
    (emissionsTick e s).1.stft1 = false ∧
    PIDS.SHORT_FUEL_TRIM_1.code ∉ (emissionsTick e s).2 := by
  unfold emissionsTick emissionsUpdate
  split
  · exact ⟨h, List.not_mem_nil _⟩
  · split
    · refine ⟨?_, List.not_mem_nil _⟩
      split
      · exact h
      · exact h
    · split
      · exact ⟨h, List.not_mem_nil _⟩
      · exact emissionsFetchData_stft1 e s h

theorem emissionsTick_ltft1 (e : EmissionsEnv) (s : EmissionsState)
    (h : s.ltft1 = false) :
    (emissionsTick e s).1.ltft1 = false ∧
    PIDS.LONG_FUEL_TRIM_1.code ∉ (emissionsTick e s).2 := by
  unfold emissionsTick emissionsUpdate
  split
  · exact ⟨h, List.not_mem_nil _⟩
  · split
    · refine ⟨?_, List.not_mem_nil _⟩
      split
      · exact h
      · exact h
    · split
      · exact ⟨h, List.not_mem_nil _⟩
      · exact emissionsFetchData_ltft1 e s h

theorem emissionsTick_o2s1 (e : EmissionsEnv) (s : EmissionsState)
    (h : s.o2s1 = false) :
    (emissionsTick e s).1.o2s1 = false ∧
    PIDS.O2_B1S1.code ∉ (emissionsTick e s).2 := by
  unfold emissionsTick emissionsUpdate
  split
  · exact ⟨h, List.not_mem_nil _⟩
  · split
    · refine ⟨?_, List.not_mem_nil _⟩
      split
      · exact h
      · exact h
    · split
      · exact ⟨h, List.not_mem_nil _⟩
      · exact emissionsFetchData_o2s1 e s h

theorem emissionsTick_o2s2 (e : EmissionsEnv) (s : EmissionsState)
    (h : s.o2s2 = false) :
    (emissionsTick e s).1.o2s2 = false ∧
    PIDS.O2_B1S2.code ∉ (emissionsTick e s).2 := by
  unfold emissionsTick emissionsUpdate
  split
  · exact ⟨h, List.not_mem_nil _⟩
  · split
    · refine ⟨?_, List.not_mem_nil _⟩
      split
      · exact h
      · exact h
    · split
      · exact ⟨h, List.not_mem_nil _⟩
      · exact emissionsFetchData_o2s2 e s h

theorem emissionsTick_maf (e : EmissionsEnv) (s : EmissionsState)
    (h : s.maf = false) :
    (emissionsTick e s).1.maf = false ∧
    PIDS.MAF_RATE.code ∉ (emissionsTick e s).2 := by
  unfold emissionsTick emissionsUpdate
  split
  · exact ⟨h, List.not_mem_nil _⟩
  · split
    · refine ⟨?_, List.not_mem_nil _⟩
      split
      · exact h
      · exact h
    · split
      · exact ⟨h, List.not_mem_nil _⟩
      · exact emissionsFetchData_maf e s h

theorem batteryTick_supported (e : BatteryEnv) (s : BatteryState)
    (h : s.supported = false) :
    (batteryTick e s).1.supported = false ∧
    PIDS.BATTERY.code ∉ (batteryTick e s).2 := by
  unfold batteryTick batteryUpdate
  split
  · exact ⟨h, List.not_mem_nil _⟩
  · split
    · refine ⟨?_, List.not_mem_nil _⟩
      split
      · exact h
      · exact h
    · split
      · exact ⟨h, List.not_mem_nil _⟩
      · rw [batteryFetchVoltage_unsupported e s h]
        exact ⟨h, List.not_mem_nil _⟩

/-- C8. Feature-detection monotonicity: for every polling module and every
parameter, once the parameter's supported flag is cleared it stays cleared
across any further run of ticks (no tick ever sets a flag back to true), and
the parameter's request code is never sent again for the remainder of the
session. -/
theorem c8_supported_monotonic :
    (∀ (es : List TimingEnv) (s : TimingState), s.supportedTiming = false →
        (timingRun es s).1.supportedTiming = false ∧
        PIDS.TIMING_ADVANCE.code ∉ (timingRun es s).2) ∧
    (∀ (es : List TimingEnv) (s : TimingState), s.supportedLoad = false →
        (timingRun es s).1.supportedLoad = false ∧
        PIDS.ENGINE_LOAD.code ∉ (timingRun es s).2) ∧
    (∀ (es : List EmissionsEnv) (s : EmissionsState), s.stft1 = false →
        (emissionsRun es s).1.stft1 = false ∧
        PIDS.SHORT_FUEL_TRIM_1.code ∉ (emissionsRun es s).2) ∧
    (∀ (es : List EmissionsEnv) (s : EmissionsState), s.ltft1 = false →
        (emissionsRun es s).1.ltft1 = false ∧
        PIDS.LONG_FUEL_TRIM_1.code ∉ (emissionsRun es s).2) ∧
    (∀ (es : List EmissionsEnv) (s : EmissionsState), s.o2s1 = false →
        (emissionsRun es s).1.o2s1 = false ∧
        PIDS.O2_B1S1.code ∉ (emissionsRun es s).2) ∧
    (∀ (es : List EmissionsEnv) (s : EmissionsState), s.o2s2 = false →
        (emissionsRun es s).1.o2s2 = false ∧
        PIDS.O2_B1S2.code ∉ (emissionsRun es s).2) ∧
    (∀ (es : List EmissionsEnv) (s : EmissionsState), s.maf = false →
        (emissionsRun es s).1.maf = false ∧
        PIDS.MAF_RATE.code ∉ (emissionsRun es s).2) ∧
    (∀ (es : List BatteryEnv) (s : BatteryState), s.supported = false →
        (batteryRun es s).1.supported = false ∧
        PIDS.BATTERY.code ∉ (batteryRun es s).2) := by
  refine ⟨?_, ?_, ?_, ?_, ?_, ?_, ?_, ?_⟩
  · exact runTicks_pres timingTick _ _ timingTick_timing
  · exact runTicks_pres timingTick _ _ timingTick_load
  · exact runTicks_pres emissionsTick _ _ emissionsTick_stft1
  · exact runTicks_pres emissionsTick _ _ emissionsTick_ltft1
  · exact runTicks_pres emissionsTick _ _ emissionsTick_o2s1
  · exact runTicks_pres emissionsTick _ _ emissionsTick_o2s2
  · exact runTicks_pres emissionsTick _ _ emissionsTick_maf
  · exact runTicks_pres batteryTick _ _ batteryTick_supported

/-- C8 witness: a timing module whose timing parameter is already marked
unsupported runs two ticks (one with a rejecting load fetch); the flag stays
cleared and the timing request code 010E is never sent. -/
theorem c8_supported_monotonic_witness :
    ((⟨true, false, true, 0⟩ : TimingState).supportedTiming = false) ∧
    ((timingRun
        [⟨true, true, false, FetchOutcome.ok, FetchOutcome.ok⟩,
         ⟨true, true, false, FetchOutcome.ok, FetchOutcome.reject⟩]
        ⟨true, false, true, 0⟩).1.supportedTiming = false ∧
      PIDS.TIMING_ADVANCE.code ∉
        (timingRun
          [⟨true, true, false, FetchOutcome.ok, FetchOutcome.ok⟩,
           ⟨true, true, false, FetchOutcome.ok, FetchOutcome.reject⟩]
          ⟨true, false, true, 0⟩).2) :=
  ⟨rfl, c8_supported_monotonic.1 _ _ rfl⟩

theorem sumIdx (m : Nat) : (∑ i ∈ Finset.range m, (i : ℚ)) = m * (m - 1) / 2 := by
  induction m with
  | zero => simp
  | succ k ih =>
      rw [Finset.sum_range_succ, ih]
      push_cast
      ring

theorem sumIdxSq (m : Nat) :
    (∑ i ∈ Finset.range m, (i : ℚ) * (i : ℚ)) = m * (m - 1) * (2 * m - 1) / 6 := by
  induction m with
  | zero => simp
  | succ k ih =>
      rw [Finset.sum_range_succ, ih]
      push_cast
      ring

theorem olsDenom (m : Nat) (h : 2 ≤ m) :
    (m : ℚ) * (∑ i ∈ Finset.range m, (i : ℚ) * (i : ℚ))
      - (∑ i ∈ Finset.range m, (i : ℚ)) * (∑ i ∈ Finset.range m, (i : ℚ)) ≠ 0 := by
  rw [sumIdx, sumIdxSq]
  have hq : (2 : ℚ) ≤ (m : ℚ) := by exact_mod_cast h
  have hm0 : (0 : ℚ) < (m : ℚ) := by linarith
  have key : (m : ℚ) * ((m : ℚ) * ((m : ℚ) - 1) * (2 * (m : ℚ) - 1) / 6)
      - ((m : ℚ) * ((m : ℚ) - 1) / 2) * ((m : ℚ) * ((m : ℚ) - 1) / 2)
      = (m : ℚ) ^ 2 * (((m : ℚ) - 1) * ((m : ℚ) + 1)) / 12 := by ring
  rw [key]
  have hpos : (0 : ℚ) < (m : ℚ) ^ 2 * (((m : ℚ) - 1) * ((m : ℚ) + 1)) / 12 := by
    apply div_pos
    · apply mul_pos
      · positivity
      · apply mul_pos <;> linarith
    · norm_num
  exact ne_of_gt hpos

theorem residSum (l : List ℚ) (m b : ℚ) :
    (∑ i ∈ Finset.range l.length, (l.getD i 0 - (m * i + b)))
      = (∑ i ∈ Finset.range l.length, l.getD i 0)
        - m * (∑ i ∈ Finset.range l.length, (i : ℚ)) - l.length * b := by
  rw [Finset.sum_sub_distrib, Finset.sum_add_distrib, ← Finset.mul_sum,
      Finset.sum_const, Finset.card_range, nsmul_eq_mul]
  ring

theorem residSumX (l : List ℚ) (m b : ℚ) :
    (∑ i ∈ Finset.range l.length, (i : ℚ) * (l.getD i 0 - (m * i + b)))
      = (∑ i ∈ Finset.range l.length, (i : ℚ) * l.getD i 0)
        - m * (∑ i ∈ Finset.range l.length, (i : ℚ) * (i : ℚ))
        - b * (∑ i ∈ Finset.range l.length, (i : ℚ)) := by
  have h1 : ∀ i ∈ Finset.range l.length,
      (i : ℚ) * (l.getD i 0 - (m * i + b))
        = (i : ℚ) * l.getD i 0 - (m * ((i : ℚ) * (i : ℚ)) + b * i) := by
    intro i _
    ring
  rw [Finset.sum_congr rfl h1, Finset.sum_sub_distrib, Finset.sum_add_distrib,
      ← Finset.mul_sum, ← Finset.mul_sum]
  ring

theorem olsCore (q Sx Sy Sxy Sxx : ℚ) (hq : q ≠ 0) (hD : q * Sxx - Sx * Sx ≠ 0) :
    (Sy - ((q * Sxy - Sx * Sy) / (q * Sxx - Sx * Sx)) * Sx
        - q * ((Sy - ((q * Sxy - Sx * Sy) / (q * Sxx - Sx * Sx)) * Sx) / q) = 0) ∧
    (Sxy - ((q * Sxy - Sx * Sy) / (q * Sxx - Sx * Sx)) * Sxx
        - ((Sy - ((q * Sxy - Sx * Sy) / (q * Sxx - Sx * Sx)) * Sx) / q) * Sx = 0) := by
  constructor
  · field_simp
    ring
  · field_simp
    ring

/-- C9. The trend analyzer's slope is the ordinary-least-squares fit of the
series against its sequence position: on the worked example
[12.6, 12.5, 12.4, 12.3, 12.2] the slope is exactly -0.1 per step, and for
every series of at least two points the computed slope and intercept satisfy
the two OLS normal equations over the (index, value) pairs - the residuals
sum to zero and are uncorrelated with the index - which characterizes the
least-squares line. -/
theorem c9_ols_slope :
    (calculateTrend [12.6, 12.5, 12.4, 12.3, 12.2]).slope = -(1 / 10) ∧
    ∀ (y0 y1 : ℚ) (ys : List ℚ),
      (∑ i ∈ Finset.range (y0 :: y1 :: ys).length,
          ((y0 :: y1 :: ys).getD i 0
            - ((calculateTrend (y0 :: y1 :: ys)).slope * i
               + (calculateTrend (y0 :: y1 :: ys)).intercept))) = 0 ∧
      (∑ i ∈ Finset.range (y0 :: y1 :: ys).length,
          (i : ℚ) * ((y0 :: y1 :: ys).getD i 0
            - ((calculateTrend (y0 :: y1 :: ys)).slope * i
               + (calculateTrend (y0 :: y1 :: ys)).intercept))) = 0 := by
  constructor
  · norm_num [calculateTrend, Finset.sum_range_succ, List.getD_cons_zero,
      List.getD_cons_succ]
  · intro y0 y1 ys
    set l := y0 :: y1 :: ys with hl
    have hlen2 : 2 ≤ l.length := by rw [hl]; simp
    have hnl : ¬ (l.length < 2) := by omega
    have hq0 : ((l.length : ℚ)) ≠ 0 := by
      have h0 : 0 < l.length := by omega
      exact_mod_cast Nat.pos_iff_ne_zero.mp h0
    have hD := olsDenom l.length hlen2
    have hslope : (calculateTrend l).slope
        = ((l.length : ℚ) * (∑ i ∈ Finset.range l.length, (i : ℚ) * l.getD i 0)
            - (∑ i ∈ Finset.range l.length, (i : ℚ))
              * (∑ i ∈ Finset.range l.length, l.getD i 0))
          / ((l.length : ℚ) * (∑ i ∈ Finset.range l.length, (i : ℚ) * (i : ℚ))
            - (∑ i ∈ Finset.range l.length, (i : ℚ))
              * (∑ i ∈ Finset.range l.length, (i : ℚ))) := by
      simp only [calculateTrend, if_neg hnl]
    have hintercept : (calculateTrend l).intercept
        = ((∑ i ∈ Finset.range l.length, l.getD i 0)
            - (calculateTrend l).slope * (∑ i ∈ Finset.range l.length, (i : ℚ)))
          / (l.length : ℚ) := by
      simp only [calculateTrend, if_neg hnl]
    refine ⟨?_, ?_⟩
    · rw [residSum l _ _, hintercept, hslope]
      exact (olsCore (l.length : ℚ) _ _ _ _ hq0 hD).1
    · rw [residSumX l _ _, hintercept, hslope]
      exact (olsCore (l.length : ℚ) _ _ _ _ hq0 hD).2

/-- C10 witness: the engine-speed descriptor taken from the table. -/
theorem c10_parse_null_total_witness :
    PIDS.RPM ∈ pidsList ∧ PIDS.RPM.parse none = none := by
  have hm : PIDS.RPM ∈ pidsList := by
    unfold pidsList
    exact List.mem_cons_self _ _
  exact ⟨hm, c10_parse_null_total PIDS.RPM hm⟩

end Gnoke
